import Mathlib

/-!
Shallow embedding of `c20stdiolib.hpp` (C++ namespace `iolib`), a small console and
file I/O convenience layer over C++ iostreams.

Modelling conventions:
- File contents are uninterpreted byte sequences (`List Nat`); the layer always opens
  streams in binary mode, so no newline translation is ever performed.
- The filesystem is a partial map from paths to contents; constructing an `std::fstream`
  follows the `basic_filebuf::open` mode table (`in` requires an existing file,
  `out|trunc` truncates or creates, `out|app` creates and appends, `in|out` requires an
  existing file without truncation).
- A stream owns a view of one file: its buffered content, a single file position shared
  by the get and put areas (as in `basic_filebuf`), and the iostate bits. `failbit`
  stands for `fail()` (failbit or badbit); `eofbit` is modelled separately because
  `seekg` clears it before seeking (C++11 semantics) while the stream sentries respect it.
- Fallible operations return `Except IOError`; operations that mutate the stream return
  the updated stream state explicitly.
-/

namespace iolib

/-- Byte sequence: the uninterpreted content of a file or of standard input. -/
abbrev Content := List Nat

/-- Paths are opaque strings handed to the OS open call. -/
abbrev Path := String

/-- The filesystem, a partial map from paths to file contents. -/
abbrev FS := Path → Option Content

/-- Point update of the filesystem map. -/
def fsUpdate (fs : FS) (p : Path) (c : Content) : FS :=
  fun q => if q = p then some c else fs q

/-- Error value of the layer. The source constructor (header lines 25-29) prepends the
literal string "IOError: " to the message it is given, and that composed string is all
the error carries. -/
structure IOError where
  what : String
  deriving DecidableEq

/-- Builds an `IOError` the way the source constructor does: `"IOError: " + msg`. -/
def mkIOError (msg : String) : IOError := ⟨"IOError: " ++ msg⟩

/-- The subset of `std::ios_base::openmode` used by `open_stream` (header lines 192-215).
`binary` is always set and needs no field: contents are bytes and never translated. -/
structure OpenFlags where
  fin : Bool
  fout : Bool
  app : Bool
  trunc : Bool
  deriving DecidableEq

/-- File modes of the layer (header lines 77-82). -/
inductive FileMode where
  | Read
  | Write
  | Append
  | ReadWrite
  deriving DecidableEq

/-- The `switch` in `open_stream` (header lines 195-208): Read ↦ `in`,
Write ↦ `out|trunc`, Append ↦ `out|app`, ReadWrite ↦ `in|out`. -/
def flagsOf : FileMode → OpenFlags
  | .Read      => ⟨true, false, false, false⟩
  | .Write     => ⟨false, true, false, true⟩
  | .Append    => ⟨false, true, true, false⟩
  | .ReadWrite => ⟨true, true, false, false⟩

/-- Constructing `std::fstream(path, flags)` per the `basic_filebuf::open` table:
`in` ↦ "r" (existing file required), `out|trunc` ↦ "w" (truncate or create),
`out|app` ↦ "a" (create if missing), `in|out` ↦ "r+" (existing file, no truncation).
Returns the content the new stream sees together with the updated filesystem, or
`none` when the OS open fails. -/
def fopen (fs : FS) (p : Path) (f : OpenFlags) : Option (Content × FS) :=
  match fs p with
  | some c => if f.trunc then some ([], fsUpdate fs p []) else some (c, fs)
  | none => if f.fout && (f.trunc || f.app) then some ([], fsUpdate fs p []) else none

/-- State of one owned `std::fstream`: whether the filebuf has an open file, the path it
was opened on, the open flags, the buffered file content, the (shared get/put) file
position, and the iostate bits. -/
structure FStreamState where
  isOpen : Bool
  path : Path
  flags : OpenFlags
  buf : Content
  pos : Nat
  failbit : Bool
  eofbit : Bool
  deriving DecidableEq

/-- `FileStream::open_stream` (header lines 192-215): computes the flags for the mode,
opens the fstream, and throws `IOError("Failed to open file: " + path)` when the open
fails. A fresh stream is positioned at 0 with a clear state. -/
def open_stream (fs : FS) (path : Path) (mode : FileMode) :
    Except IOError (FStreamState × FS) :=
  match fopen fs path (flagsOf mode) with
  | none => .error (mkIOError ("Failed to open file: " ++ path))
  | some (c, fs') => .ok (⟨true, path, flagsOf mode, c, 0, false, false⟩, fs')

/-- `seekg(0, std::ios::end)`: clears `eofbit` first (C++11), then seeks; on a stream
whose filebuf has no open file the `pubseekoff` call fails and `failbit` is set. -/
def seekg_end (s : FStreamState) : FStreamState :=
  let s1 := { s with eofbit := false }
  if s1.failbit then s1
  else if s1.isOpen then { s1 with pos := s1.buf.length }
  else { s1 with failbit := true }

/-- `seekg(0, std::ios::beg)`: same failure behaviour as `seekg_end`, seeking to 0. -/
def seekg_beg (s : FStreamState) : FStreamState :=
  let s1 := { s with eofbit := false }
  if s1.failbit then s1
  else if s1.isOpen then { s1 with pos := 0 }
  else { s1 with failbit := true }

/-- `tellg()`: the sentry fails on a stream in fail or eof state, and `pubseekoff` on a
closed filebuf fails; in those cases the result is `pos_type(-1)`, otherwise the
current position. -/
def tellg (s : FStreamState) : Int :=
  if s.failbit || s.eofbit then -1
  else if s.isOpen then (s.pos : Int)
  else -1

/-- `size_t tell() const { return stream_.tellg(); }` (header lines 185-187): the
`pos_type` converts to `streamoff` and then to the unsigned 64-bit `size_t`, so a
negative offset wraps modulo 2^64. -/
def tell (s : FStreamState) : Nat :=
  ((tellg s) % (2 ^ 64 : Int)).toNat

/-- `stream_.read(&content[0], n)` into a buffer pre-filled with `n` NUL bytes
(header lines 125-126): extracts at most the available bytes; a short read sets
`eofbit` and `failbit` and leaves the tail of the buffer as NUL bytes; a stream that
cannot read at all (filebuf closed, or file not opened with `ios::in`) extracts
nothing; a stream already in fail state has a failing sentry and extracts nothing. -/
def readBytes (s : FStreamState) (n : Nat) : Content × FStreamState :=
  if s.failbit then (List.replicate n 0, s)
  else if s.isOpen && s.flags.fin then
    let avail := s.buf.length - s.pos
    if avail < n then
      ((s.buf.drop s.pos).take avail ++ List.replicate (n - avail) 0,
        { s with pos := s.pos + avail, failbit := true, eofbit := true })
    else ((s.buf.drop s.pos).take n, { s with pos := s.pos + n })
  else (List.replicate n 0, { s with failbit := true, eofbit := true })

/-- `FileStream::read_all` (header lines 116-128): throws when `!stream_` (fail state);
otherwise seeks to the end, takes `tellg()` as the size, seeks back to the start,
returns the empty string when the size is not positive, and otherwise reads `size`
bytes into a NUL-initialized buffer of that length. -/
def read_all (s : FStreamState) : Except IOError (Content × FStreamState) :=
  if s.failbit then .error (mkIOError "File not open for reading")
  else
    let s1 := seekg_end s
    let size : Int := tellg s1
    let s2 := seekg_beg s1
    if size ≤ 0 then .ok ([], s2)
    else
      let r := readBytes s2 size.toNat
      .ok (r.1, r.2)

/-- Splits off the next line of a byte sequence: returns the bytes before the first
newline, whether a newline was found, and how many bytes were consumed including the
delimiter. -/
def takeLine : Content → Content × Bool × Nat
  | [] => ([], false, 0)
  | c :: cs =>
    if c = 10 then ([], true, 1)
    else
      let r := takeLine cs
      (c :: r.1, r.2.1, r.2.2 + 1)

/-- `std::getline(stream_, line)`: the sentry fails on a stream already in fail or eof
state; a stream that cannot read extracts nothing and ends in fail and eof state;
otherwise bytes up to the next newline are extracted with the delimiter stripped and
consumed, and reaching the end of the file before a delimiter sets `eofbit` (the call
still succeeds because bytes were extracted; extracting nothing at end of file is the
earlier fail case). -/
def getlineF (s : FStreamState) : Option Content × FStreamState :=
  if s.failbit || s.eofbit then (none, { s with failbit := true })
  else if !(s.isOpen && s.flags.fin) then (none, { s with failbit := true, eofbit := true })
  else if s.buf.length ≤ s.pos then (none, { s with failbit := true, eofbit := true })
  else
    let r := takeLine (s.buf.drop s.pos)
    (some r.1, { s with pos := s.pos + r.2.2, eofbit := !r.2.1 })

/-- `FileStream::read_line` (header lines 131-139): `none` when `!stream_` (fail
state), otherwise the result of `getline` with the delimiter stripped. -/
def read_line (s : FStreamState) : Option Content × FStreamState :=
  if s.failbit then (none, s)
  else getlineF s

/-- Overwrites bytes of `buf` starting at `pos`, zero-filling any gap when `pos` lies
past the current end (sparse-file semantics of writing after a seek past the end). -/
def writeAt (buf : Content) (pos : Nat) (v : Content) : Content :=
  buf.take pos ++ List.replicate (pos - buf.length) 0 ++ v ++ buf.drop (pos + v.length)

/-- `FileStream::write` (header lines 152-156): throws `IOError("File not open for
writing")` when `!stream_` (fail state); writing on a stream that cannot write
(filebuf closed, or file not opened with `ios::out`) fails and sets the error state;
in append mode every write goes to the end regardless of the position. -/
def write (s : FStreamState) (v : Content) : Except IOError FStreamState :=
  if s.failbit then .error (mkIOError "File not open for writing")
  else if !(s.isOpen && s.flags.fout) then .ok { s with failbit := true }
  else if s.flags.app then .ok { s with buf := s.buf ++ v, pos := (s.buf ++ v).length }
  else .ok { s with buf := writeAt s.buf s.pos v, pos := s.pos + v.length }

/-- The destructor (header lines 90-94): when the stream is still open its handle is
closed, flushing the buffered content back to the filesystem. -/
def fclose (s : FStreamState) (fs : FS) : FS :=
  if s.isOpen then fsUpdate fs s.path s.buf else fs

/-- A `FileStream` object owns one fstream. The copy constructor and copy assignment
are deleted in the source (header lines 97-98); only the move operations below exist,
so ownership can be transferred but never duplicated. -/
structure FileStream where
  stream_ : FStreamState
  deriving DecidableEq

/-- `bool is_open() const` (header line 113). -/
def is_open (f : FileStream) : Bool := f.stream_.isOpen

/-- The fstream left behind by `std::move`: its filebuf no longer has an open file
(`rhs.is_open() == false` is the moved-from filebuf postcondition), its buffered view
is gone, and the stream state bits remain as they were. -/
def movedFromState (s : FStreamState) : FStreamState :=
  { isOpen := false, path := s.path, flags := s.flags, buf := [], pos := 0,
    failbit := s.failbit, eofbit := s.eofbit }

/-- Move constructor (header lines 101-102): the new object takes the source's stream,
the source keeps a filebuf with no open file. Returns the new object first and what
the source becomes second. -/
def moveConstruct (other : FileStream) : FileStream × FileStream :=
  (⟨other.stream_⟩, ⟨movedFromState other.stream_⟩)

/-- Objects live at addresses so that self-move-assignment (`this == &other`) is
expressible. -/
abbrev Store := Nat → FileStream

/-- Move assignment (header lines 104-110) acting on a store of `FileStream` objects
and the filesystem: when target and source are distinct objects, the target first
closes its own handle if open (flushing it to the filesystem) and then takes the
source's stream, leaving the source without a handle; self-move-assignment is guarded
by `this != &other` and changes nothing. -/
def moveAssignStore (σ : Store) (fs : FS) (t s : Nat) : Store × FS :=
  if t = s then (σ, fs)
  else
    let fs' := if (σ t).stream_.isOpen then fclose (σ t).stream_ fs else fs
    (fun a =>
      if a = t then ⟨(σ s).stream_⟩
      else if a = s then ⟨movedFromState (σ s).stream_⟩
      else σ a, fs')

/-- `read_file` (header lines 220-223): opens in Read mode, returns `read_all()`, and
the scoped stream is closed on return. -/
def read_file (fs : FS) (p : Path) : Except IOError Content :=
  match open_stream fs p FileMode.Read with
  | .error e => .error e
  | .ok (s, _) =>
    match read_all s with
    | .error e => .error e
    | .ok (c, _) => .ok c

/-- `write_file` (header lines 226-230): opens in Write mode (truncating), writes the
content, and the destructor closes the stream, flushing it to the filesystem. -/
def write_file (fs : FS) (p : Path) (content : Content) : Except IOError FS :=
  match open_stream fs p FileMode.Write with
  | .error e => .error e
  | .ok (s, fs1) =>
    match write s content with
    | .error e => .error e
    | .ok s1 => .ok (fclose s1 fs1)

/-- The `while (auto line = file.read_line())` loop of `read_lines` (header lines
244-246), with fuel: every successful `read_line` consumes at least one byte of the
buffer, so `buf.length + 1` iterations always reach the terminating `none`. -/
def readLinesLoop : Nat → FStreamState → List Content → List Content × FStreamState
  | 0, s, acc => (acc.reverse, s)
  | fuel + 1, s, acc =>
    match read_line s with
    | (none, s1) => (acc.reverse, s1)
    | (some l, s1) => readLinesLoop fuel s1 (l :: acc)

/-- `read_lines` (header lines 240-249): opens in Read mode, collects every line until
`read_line` yields `none`, and returns the fully materialized list in file order. -/
def read_lines (fs : FS) (p : Path) : Except IOError (List Content) :=
  match open_stream fs p FileMode.Read with
  | .error e => .error e
  | .ok (s, _) => .ok (readLinesLoop (s.buf.length + 1) s []).1

/-- `std::cin.ignore(std::numeric_limits<std::streamsize>::max(), '\n')` on the
remaining input: discards bytes up to and including the first newline, or everything
when no newline remains. -/
def ignoreToNl : List Nat → List Nat
  | [] => []
  | c :: cs => if c = 10 then cs else ignoreToNl cs

/-- Skips the leading whitespace bytes the way formatted extraction does. -/
def skipWs : List Nat → List Nat
  | [] => []
  | c :: cs =>
    if c = 32 || c = 9 || c = 10 || c = 11 || c = 12 || c = 13 then skipWs cs
    else c :: cs

/-- Takes the longest run of decimal digit bytes from the front. -/
def takeDigits : List Nat → List Nat × List Nat
  | [] => ([], [])
  | c :: cs =>
    if 48 ≤ c && c ≤ 57 then
      let r := takeDigits cs
      (c :: r.1, r.2)
    else ([], c :: cs)

/-- Numeric value of a run of decimal digit bytes. -/
def digitsToNat (ds : List Nat) : Nat :=
  ds.foldl (fun a d => a * 10 + (d - 48)) 0

/-- The extraction `std::cin >> value` at type `unsigned`: skip whitespace, then
consume a nonempty run of digits; extraction fails when no digits follow. One concrete
instance of the `Readable` contract, used to instantiate the generic console read. -/
def natExtract (input : List Nat) : Option (Nat × List Nat) :=
  let rest := skipWs input
  let r := takeDigits rest
  if r.1 = [] then none else some (digitsToNat r.1, r.2)

namespace Console

/-- `Console::read<T>` (header lines 57-66; the body is transliterated in the original
but its structure is intact): performs `std::cin >> value`; when the extraction fails
it throws `IOError("无法从控制台读取值")`; on success it discards the remainder of the
input line up to and including its terminator via `cin.ignore(max, '\n')` and returns
the value. Standard input is a byte list; the extraction for a `Readable` type `T` is
the parameter `extract`, consuming a prefix of the input. -/
def read {α : Type} (extract : List Nat → Option (α × List Nat)) (input : List Nat) :
    Except IOError (α × List Nat) :=
  match extract input with
  | none => .error (mkIOError "无法从控制台读取值")
  | some (v, rest) => .ok (v, ignoreToNl rest)

end Console

/-- Bool-valued test that the first list is an initial segment of the second. -/
def isPrefixB : List Char → List Char → Bool
  | [], _ => true
  | _ :: _, [] => false
  | a :: as, b :: bs => a = b && isPrefixB as bs

/-- Bool-valued substring test on character lists, used to state which error messages
mention the path of the file involved. -/
def containsB : List Char → List Char → Bool
  | n, [] => isPrefixB n []
  | n, c :: hs => isPrefixB n (c :: hs) || containsB n hs

/-- Filesystem with one file holding the two bytes "ab", used to exhibit the behaviour
of `read_all` on a stream opened in Append mode. -/
def cexAppendFS : FS := fun q => if q = "log.txt" then some [97, 98] else none

/-- The stream produced by opening "log.txt" of `cexAppendFS` in Append mode. -/
def cexAppendStream : FStreamState :=
  ⟨true, "log.txt", flagsOf FileMode.Append, [97, 98], 0, false, false⟩

/-- Filesystem with one file holding the two bytes "ab", used to exhibit the behaviour
of `read_all` on a stream opened in Write mode. -/
def cexWriteFS : FS := fun q => if q = "data.txt" then some [97, 98] else none

/-- The stream produced by opening "data.txt" of `cexWriteFS` in Write mode: the file
is truncated, so the buffered content is empty. -/
def cexWriteStream : FStreamState :=
  ⟨true, "data.txt", flagsOf FileMode.Write, [], 0, false, false⟩

/-- Filesystem with one empty file, used to drive a reading stream into fail state. -/
def cexMsgFS : FS := fun q => if q = "myfile.txt" then some [] else none

/-- The stream produced by opening the empty "myfile.txt" of `cexMsgFS` in Read mode. -/
def cexMsgStream : FStreamState :=
  ⟨true, "myfile.txt", flagsOf FileMode.Read, [], 0, false, false⟩

/-- Filesystem with one two-line file without trailing terminator, for the
`read_lines` witness. -/
def cexLinesFS : FS := fun q => if q = "lines.txt" then some [120, 10, 121] else none

/-- A small open readable stream (two bytes, position 1, eof bit set) used as a
concrete input witnessing the `read_all` correctness theorem. -/
def cexReadableStream : FStreamState :=
  ⟨true, "w.txt", flagsOf FileMode.Read, [104, 105], 1, false, true⟩

/-- An open stream used to populate the store for the move-assignment witness. -/
def cexStoreStream : FStreamState :=
  ⟨true, "a.txt", flagsOf FileMode.Read, [104], 0, false, false⟩

/-- Store holding an open `FileStream` at address 0 and a moved-from one at every
other address. -/
def cexStore : Store :=
  fun a => if a = 0 then ⟨cexStoreStream⟩ else ⟨movedFromState cexStoreStream⟩

/-- Filesystem matching `cexStore`'s open stream. -/
def cexStoreFS : FS := fun q => if q = "a.txt" then some [104] else none

/-- Looking up the path just written always finds the new content. -/
theorem fsUpdate_same (fs : FS) (p : Path) (c : Content) : fsUpdate fs p c p = some c := by
  simp [fsUpdate]

/-- On a stream open for reading with a clear fail state, `read_all` returns the whole
buffered content and ends with the position at end-of-content. -/
theorem read_all_ok (s : FStreamState) (ho : s.isOpen = true) (hf : s.failbit = false)
    (hr : s.flags.fin = true) :
    ∃ s', read_all s = .ok (s.buf, s') ∧ s'.pos = s.buf.length := by
  by_cases hb : s.buf = []
  · refine ⟨{ s with eofbit := false, pos := 0 }, ?_, by simp [hb]⟩
    simp [read_all, seekg_end, seekg_beg, tellg, hf, ho, hb]
  · have hlen : 0 < s.buf.length := List.length_pos.mpr hb
    have hle : ¬ ((s.buf.length : Int) ≤ 0) := by omega
    refine ⟨{ s with eofbit := false, pos := s.buf.length }, ?_, rfl⟩
    simp [read_all, seekg_end, seekg_beg, tellg, readBytes, hf, ho, hr, hle,
      Int.toNat_natCast]

/-- C1: for every filesystem, path and byte sequence (including the empty sequence and
sequences with embedded line terminators and NUL bytes), `write_file` succeeds and a
subsequent `read_file` of the same path returns exactly the written bytes. -/
theorem write_read_round_trip (fs : FS) (p : Path) (content : Content) :
    ∃ fs', write_file fs p content = .ok fs' ∧ read_file fs' p = .ok content := by
  refine ⟨fsUpdate (fsUpdate fs p []) p content, ?_, ?_⟩
  · have hopen : fopen fs p ⟨false, true, false, true⟩ = some ([], fsUpdate fs p []) := by
      cases hfs : fs p <;> simp [fopen, hfs]
    simp [write_file, open_stream, flagsOf, hopen, write, writeAt, fclose]
  · have hlook : fsUpdate (fsUpdate fs p []) p content p = some content :=
      fsUpdate_same _ _ _
    have hopen : fopen (fsUpdate (fsUpdate fs p []) p content) p ⟨true, false, false, false⟩ =
        some (content, fsUpdate (fsUpdate fs p []) p content) := by
      simp [fopen, hlook]
    obtain ⟨s', hs', -⟩ :=
      read_all_ok ⟨true, p, ⟨true, false, false, false⟩, content, 0, false, false⟩ rfl rfl rfl
    simp [read_file, open_stream, flagsOf, hopen, hs']

/-- C2: ownership is never duplicated by the move operations (the copy operations are
deleted in the source): after a move construction the moved-from object reports
`is_open() = false`, while the new object holds exactly the source's former stream and
therefore reports whatever the source reported before the move. -/
theorem move_constructor_ownership (f : FileStream) :
    is_open (moveConstruct f).2 = false ∧
    is_open (moveConstruct f).1 = is_open f ∧
    (moveConstruct f).1.stream_ = f.stream_ :=
  ⟨rfl, rfl, rfl⟩

/-- C3 fails as stated for a stream opened in Append mode: opening "log.txt" (content
"ab") in Append mode yields an open stream, but `read_all` returns two NUL bytes
rather than the two content bytes and leaves the position at 0 rather than at
end-of-content, because this open stream cannot read. -/
theorem read_all_append_mode_counterexample :
    open_stream cexAppendFS "log.txt" FileMode.Append = .ok (cexAppendStream, cexAppendFS) ∧
    cexAppendStream.buf = [97, 98] ∧
    read_all cexAppendStream =
      .ok ([0, 0], { cexAppendStream with failbit := true, eofbit := true }) ∧
    ([0, 0] : Content) ≠ [97, 98] ∧
    ({ cexAppendStream with failbit := true, eofbit := true } : FStreamState).pos = 0 ∧
    (0 : Nat) ≠ cexAppendStream.buf.length := by
  refine ⟨rfl, rfl, ?_, by decide, rfl, by decide⟩
  rfl

/-- C3 (amended): for every FileStream open for reading (a readable mode, fail state
clear), `read_all` determines the total size by seeking to the end and back to the
start, returns the empty string when that size is not positive, otherwise returns
exactly the `size` bytes of content, and leaves the stream position at
end-of-content. -/
theorem read_all_readable_correct (s : FStreamState) (ho : s.isOpen = true)
    (hf : s.failbit = false) (hr : s.flags.fin = true) :
    (read_all s).toOption.map (fun r => (r.1, r.2.pos)) = some (s.buf, s.buf.length) := by
  obtain ⟨s', h1, h2⟩ := read_all_ok s ho hf hr
  simp [h1, h2, Except.toOption]

/-- Witness: the concrete readable two-byte stream satisfies the hypotheses and the
conclusion of the amended C3 theorem. -/
theorem read_all_readable_correct_witness :
    cexReadableStream.isOpen = true ∧ cexReadableStream.failbit = false ∧
    cexReadableStream.flags.fin = true ∧
    (read_all cexReadableStream).toOption.map (fun r => (r.1, r.2.pos)) =
      some (cexReadableStream.buf, cexReadableStream.buf.length) :=
  ⟨rfl, rfl, rfl, read_all_readable_correct cexReadableStream rfl rfl rfl⟩

/-- C4: for every filesystem and every path that does not exist, opening in Read mode
fails with the `IOError` built from "Failed to open file: " plus the path, while
opening in Write mode succeeds with an open stream and creates the file (empty). -/
theorem open_missing_modes (fs : FS) (p : Path) (h : fs p = none) :
    open_stream fs p FileMode.Read = .error (mkIOError ("Failed to open file: " ++ p)) ∧
    open_stream fs p FileMode.Write =
      .ok (⟨true, p, ⟨false, true, false, true⟩, [], 0, false, false⟩, fsUpdate fs p []) ∧
    fsUpdate fs p [] p = some [] := by
  refine ⟨?_, ?_, fsUpdate_same _ _ _⟩
  · simp [open_stream, fopen, flagsOf, h]
  · simp [open_stream, fopen, flagsOf, h]

/-- Witness: the empty filesystem and path "a.txt" satisfy the hypothesis and the
conclusion of the C4 theorem. -/
theorem open_missing_modes_witness :
    ((fun _ => none : FS) "a.txt" = none) ∧
    open_stream (fun _ => none : FS) "a.txt" FileMode.Read =
      .error (mkIOError ("Failed to open file: " ++ "a.txt")) :=
  ⟨rfl, (open_missing_modes (fun _ => none) "a.txt" rfl).1⟩

/-- C5: for every filesystem and path, `read_lines` returns the empty sequence for an
empty file, and for a file containing "x\ny\n", as well as for a file containing
"x\ny" without trailing terminator, it returns the fully materialized sequence
["x", "y"] in file order (bytes: x = 120, y = 121, newline = 10). -/
theorem read_lines_examples (fs : FS) (p : Path) :
    (fs p = some [] → read_lines fs p = .ok []) ∧
    (fs p = some [120, 10, 121, 10] → read_lines fs p = .ok [[120], [121]]) ∧
    (fs p = some [120, 10, 121] → read_lines fs p = .ok [[120], [121]]) := by
  refine ⟨fun h => ?_, fun h => ?_, fun h => ?_⟩
  · have hop : open_stream fs p FileMode.Read =
        .ok (⟨true, p, ⟨true, false, false, false⟩, [], 0, false, false⟩, fs) := by
      simp [open_stream, fopen, flagsOf, h]
    simp only [read_lines, hop]
    rfl
  · have hop : open_stream fs p FileMode.Read =
        .ok (⟨true, p, ⟨true, false, false, false⟩, [120, 10, 121, 10], 0, false, false⟩, fs) := by
      simp [open_stream, fopen, flagsOf, h]
    simp only [read_lines, hop]
    rfl
  · have hop : open_stream fs p FileMode.Read =
        .ok (⟨true, p, ⟨true, false, false, false⟩, [120, 10, 121], 0, false, false⟩, fs) := by
      simp [open_stream, fopen, flagsOf, h]
    simp only [read_lines, hop]
    rfl

/-- Witness: on the concrete filesystem holding "x\ny" at "lines.txt", `read_lines`
returns ["x", "y"]. -/
theorem read_lines_examples_witness :
    cexLinesFS "lines.txt" = some [120, 10, 121] ∧
    read_lines cexLinesFS "lines.txt" = .ok [[120], [121]] :=
  ⟨rfl, (read_lines_examples cexLinesFS "lines.txt").2.2 rfl⟩

/-- C6 fails as stated for a stream opened in Write mode: opening "data.txt" in Write
mode yields an open stream that is not open for reading (no `ios::in` flag), yet
`read_all` returns the empty string instead of failing with `IOError`, because the
guard in the source only checks the fail state. -/
theorem read_all_write_mode_counterexample :
    open_stream cexWriteFS "data.txt" FileMode.Write =
      .ok (cexWriteStream, fsUpdate cexWriteFS "data.txt" []) ∧
    cexWriteStream.isOpen = true ∧
    cexWriteStream.flags.fin = false ∧
    read_all cexWriteStream = .ok ([], cexWriteStream) :=
  ⟨rfl, rfl, rfl, rfl⟩

/-- C6 (amended): `read_all` fails with `IOError` exactly when the stream is in a fail
state; a stream whose fail state is clear never raises, in particular a closed or
moved-from stream in a good state has its size computation fail (tellg yields -1) and
returns the empty string rather than an error. -/
theorem read_all_failure_characterization :
    (∀ s : FStreamState, s.failbit = true →
        read_all s = .error (mkIOError "File not open for reading")) ∧
    (∀ s : FStreamState, s.failbit = false → (read_all s).toOption.isSome = true) ∧
    (∀ s : FStreamState, s.isOpen = false → s.failbit = false →
        (read_all s).toOption.map (fun r => r.1) = some []) := by
  refine ⟨fun s h => by simp [read_all, h], fun s h => ?_, fun s ho h => ?_⟩
  · simp only [read_all, h, Bool.false_eq_true, if_false]
    split
    · simp [Except.toOption]
    · simp [Except.toOption]
  · simp [read_all, seekg_end, seekg_beg, tellg, h, ho, Except.toOption]

/-- Witness: a moved-from stream (closed, good state) makes `read_all` return the
empty string, and the same stream after the failed seek makes it raise the fixed
`IOError`; both facts instantiate the amended C6 theorem. -/
theorem read_all_failure_characterization_witness :
    (movedFromState cexStoreStream).isOpen = false ∧
    (movedFromState cexStoreStream).failbit = false ∧
    (read_all (movedFromState cexStoreStream)).toOption.map (fun r => r.1) = some [] ∧
    ({ cexStoreStream with failbit := true } : FStreamState).failbit = true ∧
    read_all { cexStoreStream with failbit := true } =
      .error (mkIOError "File not open for reading") :=
  ⟨rfl, rfl,
    read_all_failure_characterization.2.2 (movedFromState cexStoreStream) rfl rfl,
    rfl,
    read_all_failure_characterization.1 { cexStoreStream with failbit := true } rfl⟩

/-- Concatenation of strings concatenates their character data. -/
theorem str_data_append (a b : String) : (a ++ b).data = a.data ++ b.data := by
  cases a
  cases b
  rfl

/-- A list is a prefix of itself followed by anything. -/
theorem isPrefixB_append (l t : List Char) : isPrefixB l (l ++ t) = true := by
  induction l with
  | nil => rfl
  | cons c cs ih => simp [isPrefixB, ih]

/-- A prefix of a haystack is still a prefix when the haystack is extended. -/
theorem isPrefixB_mono (n : List Char) :
    ∀ h t : List Char, isPrefixB n h = true → isPrefixB n (h ++ t) = true := by
  induction n with
  | nil => intro h t _; rfl
  | cons a as ih =>
    intro h t hp
    cases h with
    | nil => exact absurd hp (by simp [isPrefixB])
    | cons b bs =>
      simp only [isPrefixB, Bool.and_eq_true, decide_eq_true_eq] at hp
      simp only [List.cons_append, isPrefixB, Bool.and_eq_true, decide_eq_true_eq]
      exact ⟨hp.1, ih bs t hp.2⟩

/-- The substring test finds the needle placed at the end of the haystack. -/
theorem containsB_append_self (pre n : List Char) : containsB n (pre ++ n) = true := by
  induction pre with
  | nil =>
    cases n with
    | nil => rfl
    | cons c ns =>
      have h := isPrefixB_mono (c :: ns) (c :: ns) [] (by
        have := isPrefixB_append (c :: ns) []
        rwa [List.append_nil] at this)
      rw [List.append_nil] at h
      simp [containsB, h]
  | cons c pre' ih =>
    simp [containsB, ih]

/-- A needle found in a haystack is still found when the haystack is extended. -/
theorem containsB_append_left (n : List Char) :
    ∀ h t : List Char, containsB n h = true → containsB n (h ++ t) = true := by
  intro h
  induction h with
  | nil =>
    intro t hc
    cases n with
    | nil =>
      cases t with
      | nil => rfl
      | cons c ts => simp [containsB, isPrefixB]
    | cons a as => exact absurd hc (by simp [containsB, isPrefixB])
  | cons c hs ih =>
    intro t hc
    simp only [containsB, Bool.or_eq_true] at hc
    simp only [List.cons_append, containsB, Bool.or_eq_true]
    rcases hc with h1 | h2
    · left
      have := isPrefixB_mono n (c :: hs) t h1
      rwa [List.cons_append] at this
    · right
      exact ih t h2

/-- C7 fails as stated: driving the reader of the empty file "myfile.txt" past the end
puts the stream in fail state, and the `IOError` then raised by `read_all` carries the
fixed message "IOError: File not open for reading", which names the operation but does
not contain the path of the file involved. -/
theorem ioerror_message_counterexample :
    open_stream cexMsgFS "myfile.txt" FileMode.Read = .ok (cexMsgStream, cexMsgFS) ∧
    read_line cexMsgStream = (none, { cexMsgStream with failbit := true, eofbit := true }) ∧
    read_all { cexMsgStream with failbit := true, eofbit := true } =
      .error (mkIOError "File not open for reading") ∧
    containsB "myfile.txt".data (mkIOError "File not open for reading").what.data = false :=
  ⟨rfl, rfl, rfl, rfl⟩

/-- C7 (amended): the `IOError` of a failed open carries both the operation and the
path ("Failed to open file: " plus the path); the stream-level read and write failures
carry only the fixed operation messages "File not open for reading" and "File not open
for writing", with no path or file context attached. -/
theorem ioerror_message_content :
    (∀ (fs : FS) (p : Path), fs p = none →
        open_stream fs p FileMode.Read = .error (mkIOError ("Failed to open file: " ++ p)) ∧
        containsB p.data (mkIOError ("Failed to open file: " ++ p)).what.data = true ∧
        containsB "open".data (mkIOError ("Failed to open file: " ++ p)).what.data = true) ∧
    (∀ s : FStreamState, s.failbit = true →
        read_all s = .error (mkIOError "File not open for reading")) ∧
    (∀ (s : FStreamState) (v : Content), s.failbit = true →
        write s v = .error (mkIOError "File not open for writing")) := by
  have hd : ∀ p : Path, (mkIOError ("Failed to open file: " ++ p)).what.data =
      ("IOError: ".data ++ "Failed to open file: ".data) ++ p.data := by
    intro p
    show ("IOError: " ++ ("Failed to open file: " ++ p)).data = _
    rw [str_data_append, str_data_append, List.append_assoc]
  refine ⟨fun fs p h => ⟨?_, ?_, ?_⟩, fun s h => by simp [read_all, h],
    fun s v h => by simp [write, h]⟩
  · simp [open_stream, fopen, flagsOf, h]
  · rw [hd]
    exact containsB_append_self _ _
  · rw [hd]
    exact containsB_append_left _ _ _ (by decide)

/-- Witness: the empty filesystem at "b.txt" and a failed stream instantiate the
hypotheses and conclusions of the amended C7 theorem. -/
theorem ioerror_message_content_witness :
    ((fun _ => none : FS) "b.txt" = none) ∧
    containsB "b.txt".data (mkIOError ("Failed to open file: " ++ "b.txt")).what.data = true ∧
    ({ cexMsgStream with failbit := true } : FStreamState).failbit = true ∧
    write { cexMsgStream with failbit := true } [104] =
      .error (mkIOError "File not open for writing") :=
  ⟨rfl, (ioerror_message_content.1 (fun _ => none) "b.txt" rfl).2.1, rfl,
    ioerror_message_content.2.2 { cexMsgStream with failbit := true } [104] rfl⟩

/-- Discarding up to the newline removes exactly the rest of the current line together
with its terminator. -/
theorem ignoreToNl_append (post : List Nat) :
    ∀ pre : List Nat, 10 ∉ pre → ignoreToNl (pre ++ 10 :: post) = post := by
  intro pre
  induction pre with
  | nil => intro _; simp [ignoreToNl]
  | cons c cs ih =>
    intro h
    simp only [List.mem_cons, not_or] at h
    simp only [List.cons_append, ignoreToNl]
    rw [if_neg (fun hc => h.1 hc.symm)]
    exact ih h.2

/-- C8: for every readable type — every extraction function standing for
`cin >> value` — `Console::read` fails with `IOError` when the extraction fails, and
on success it discards the remainder of the current input line up to and including its
terminator before returning the parsed value, so the following input starts right
after the newline. -/
theorem console_read_spec {α : Type} (extract : List Nat → Option (α × List Nat))
    (input : List Nat) :
    (extract input = none →
        Console.read extract input = .error (mkIOError "无法从控制台读取值")) ∧
    (∀ (v : α) (pre post : List Nat), extract input = some (v, pre ++ 10 :: post) →
        10 ∉ pre → Console.read extract input = .ok (v, post)) := by
  refine ⟨fun h => by simp [Console.read, h], fun v pre post h hn => ?_⟩
  simp [Console.read, h, ignoreToNl_append post pre hn]

/-- Witness: reading an unsigned value from the console input "12 j\nn" parses 12 and
leaves exactly the byte after the newline, and reading from "abc" fails; both
instantiate the C8 theorem with the concrete unsigned extraction. -/
theorem console_read_spec_witness :
    natExtract [49, 50, 32, 106, 10, 110] = some (12, [32, 106] ++ 10 :: [110]) ∧
    (10 ∉ [32, 106]) ∧
    Console.read natExtract [49, 50, 32, 106, 10, 110] = .ok (12, [110]) ∧
    natExtract [97, 98, 99] = none ∧
    Console.read natExtract [97, 98, 99] = .error (mkIOError "无法从控制台读取值") :=
  ⟨by decide, by decide,
    (console_read_spec natExtract [49, 50, 32, 106, 10, 110]).2 12 [32, 106] [110]
      (by decide) (by decide),
    by decide,
    (console_read_spec natExtract [97, 98, 99]).1 (by decide)⟩

/-- C9: on a stream whose read position cannot be reported — fail state set, or
filebuf closed as after a move — `tellg()` yields `pos_type(-1)`, and the conversion
to the unsigned `size_t` return type makes `tell` report the maximum 64-bit value
2^64 - 1 instead of failing. -/
theorem tell_of_dead_stream (s : FStreamState)
    (h : s.failbit = true ∨ s.isOpen = false) :
    tellg s = -1 ∧ tell s = 2 ^ 64 - 1 := by
  have ht : tellg s = -1 := by
    rcases h with h | h
    · simp [tellg, h]
    · by_cases he : s.eofbit <;> by_cases hfb : s.failbit <;> simp [tellg, h, he, hfb]
  refine ⟨ht, ?_⟩
  unfold tell
  rw [ht]
  norm_num
  omega

/-- Witness: a moved-from stream is closed, and `tell` on it reports 2^64 - 1. -/
theorem tell_of_dead_stream_witness :
    (movedFromState cexStoreStream).isOpen = false ∧
    tell (movedFromState cexStoreStream) = 2 ^ 64 - 1 :=
  ⟨rfl, (tell_of_dead_stream (movedFromState cexStoreStream) (Or.inr rfl)).2⟩

/-- C10: for distinct FileStream objects, move assignment first closes the target's
own handle when it is open — flushing its buffered content to the filesystem before
the source's stream is taken, so the handle is neither leaked nor double-owned — then
the target holds exactly the source's stream, the source is left without a handle, and
every other object is untouched; self-move-assignment, guarded by `this != &other`,
leaves both the store and the filesystem unchanged. -/
theorem move_assign_spec (σ : Store) (fs : FS) (t s : Nat) :
    (t ≠ s →
      ((moveAssignStore σ fs t s).1 t).stream_ = (σ s).stream_ ∧
      is_open ((moveAssignStore σ fs t s).1 s) = false ∧
      ((σ t).stream_.isOpen = true →
        (moveAssignStore σ fs t s).2 (σ t).stream_.path = some (σ t).stream_.buf) ∧
      (∀ a, a ≠ t → a ≠ s → (moveAssignStore σ fs t s).1 a = σ a)) ∧
    (t = s → moveAssignStore σ fs t s = (σ, fs)) := by
  constructor
  · intro hts
    refine ⟨?_, ?_, fun ho => ?_, fun a hat has => ?_⟩
    · simp [moveAssignStore, hts]
    · simp [moveAssignStore, hts, Ne.symm hts, is_open, movedFromState]
    · simp [moveAssignStore, hts, fclose, ho, fsUpdate]
    · simp [moveAssignStore, hts, hat, has]
  · intro h
    simp [moveAssignStore, h]

/-- Witness: in the concrete store, moving object 1 into object 0 gives 0 the stream
of 1 and leaves 1 without a handle, and the self-move of object 0 leaves the
filesystem unchanged. -/
theorem move_assign_spec_witness :
    (0 : Nat) ≠ 1 ∧
    ((moveAssignStore cexStore cexStoreFS 0 1).1 0).stream_ = (cexStore 1).stream_ ∧
    is_open ((moveAssignStore cexStore cexStoreFS 0 1).1 1) = false ∧
    (moveAssignStore cexStore cexStoreFS 0 0).2 = cexStoreFS :=
  ⟨by decide, ((move_assign_spec cexStore cexStoreFS 0 1).1 (by decide)).1,
    ((move_assign_spec cexStore cexStoreFS 0 1).1 (by decide)).2.1,
    congrArg Prod.snd ((move_assign_spec cexStore cexStoreFS 0 0).2 rfl)⟩
